import Mathlib

/-!
Verification development for the auth core of the prismacv backend
(NestJS/TypeScript). The definitions below are a shallow embedding of the
source files:

  * src/modules/auth/auth.service.ts   (validateUser, adminLogin, refreshToken,
    forgotPassword, verifyResetOtp, resetPassword, getTokens, updateRefreshToken)
  * src/modules/auth/otp.service.ts    (generateOtpCode, generatePasswordResetOtp,
    verifyPasswordResetOtpInternal)
  * src/modules/auth/users.service.ts  (findByEmail, findById, createOtp,
    findValidOtp, incrementOtpAttempts, markOtpAsUsed, update)
  * src/modules/auth/mappers/auth.mapper.ts (loginRequestToCredentials)
  * src/shared/utils/token.util.ts     (hashResetToken, verifyResetToken)
  * src/shared/utils/otp.util.ts       (hashOtp, verifyOtp)
  * the EncryptionUtil class (AES-256-GCM wrapper around node crypto)

External primitives (bcryptjs, jsonwebtoken, node crypto, Buffer) are modelled
by idealized executable structures; everything written by the repository
itself (control flow, guards, field layouts, argument order, error classes and
messages) is translated literally.

Time is modelled in milliseconds as `Nat` (JavaScript `Date.now()`), and every
source of randomness (bcrypt salts, random bytes, generated ids) is passed in
as an explicit argument.
-/

/-! ### bcryptjs model

`bcrypt.hash` embeds the randomly generated salt in its output string, so two
hashes of the same input with different salts are different strings, and
`bcrypt.compare` recovers the salt from the hash and checks the preimage.  We
idealize the digest as collision-free: `bcryptCompare x h` holds exactly when
`x` is the hashed input. -/

structure BHash (α : Type) where
  salt : Nat
  input : α
deriving DecidableEq, Repr

def bcryptHash {α : Type} (x : α) (salt : Nat) : BHash α := ⟨salt, x⟩

def bcryptCompare {α : Type} [DecidableEq α] (x : α) (h : BHash α) : Bool :=
  decide (x = h.input)

/-- token.util.ts: hashResetToken(token) = bcrypt.hash(token, 10); the salt is
fresh randomness chosen by bcrypt on every call, made explicit here. -/
def hashResetToken (token : String) (salt : Nat) : BHash String := bcryptHash token salt

/-- token.util.ts: verifyResetToken(token, hash) = bcrypt.compare(token, hash). -/
def verifyResetToken (token : String) (h : BHash String) : Bool := bcryptCompare token h

/-- otp.util.ts: hashOtp(otp) = bcrypt.hash(otp, 10). -/
def hashOtp (otp : String) (salt : Nat) : BHash String := bcryptHash otp salt

/-- otp.util.ts: verifyOtp(otp, hash) = bcrypt.compare(otp, hash). -/
def verifyOtp (otp : String) (h : BHash String) : Bool := bcryptCompare otp h

/-! ### JavaScript string primitives

Executable models of String.prototype.toLowerCase and String.prototype.trim,
which coincide with the JavaScript functions on ASCII input. -/

def jsToLowerCase (s : String) : String := String.mk (s.data.map Char.toLower)

deriving instance DecidableEq for Except

def jsTrim (s : String) : String :=
  String.mk (((s.data.dropWhile Char.isWhitespace).reverse.dropWhile Char.isWhitespace).reverse)

/-! ### jsonwebtoken model

A signed token is idealized as the record of its claims, signing secret and
timing; `jwtVerify` succeeds exactly on tokens signed with the same secret
that are not yet expired. -/

inductive UserRole where
  | REGULAR
  | PLATFORM_ADMIN
deriving DecidableEq, Repr

structure JwtPayload where
  sub : String
  email : String
  role : UserRole
  isMasterAdmin : Bool
deriving DecidableEq, Repr

structure Jwt where
  payload : JwtPayload
  secret : String
  iat : Nat
  expMs : Nat
deriving DecidableEq, Repr

def jwtSign (p : JwtPayload) (secret : String) (now expiresInMs : Nat) : Jwt :=
  { payload := p, secret := secret, iat := now, expMs := now + expiresInMs }

def jwtVerify (t : Jwt) (secret : String) (now : Nat) : Option JwtPayload :=
  if t.secret = secret ∧ now < t.expMs then some t.payload else none

/-! ### NestJS error taxonomy (the exception classes thrown by the services) -/

inductive AuthError where
  | unauthorized (msg : String)
  | badRequest (msg : String)
  | notFound (msg : String)
  | conflict (msg : String)
  | tooManyRequests (msg : String)
deriving DecidableEq, Repr

/-- True exactly on the HTTP 429 (rate-limit) error class. -/
def AuthError.isRateLimited : AuthError → Bool
  | .tooManyRequests _ => true
  | _ => false

/-! ### Data model (prisma schema: User, Otp, AuthToken) -/

inductive OtpPurpose where
  | SIGNUP_EMAIL_VERIFICATION
  | PASSWORD_RESET
deriving DecidableEq, Repr

inductive AuthTokenPurpose where
  | PASSWORD_RESET
deriving DecidableEq, Repr

structure User where
  id : String
  email : String
  password : Option (BHash String)
  name : String
  role : UserRole
  isMasterAdmin : Bool
  refreshToken : Option (BHash Jwt)
  emailVerified : Bool
deriving DecidableEq, Repr

structure Otp where
  id : String
  userId : String
  purpose : OtpPurpose
  otpHash : BHash String
  attempts : Nat
  maxAttempts : Nat
  expiresAt : Nat
  usedAt : Option Nat
deriving DecidableEq, Repr

structure AuthToken where
  id : String
  userId : String
  purpose : AuthTokenPurpose
  tokenHash : BHash String
  expiresAt : Nat
  usedAt : Option Nat
deriving DecidableEq, Repr

structure DB where
  users : List User
  otps : List Otp
  authTokens : List AuthToken
deriving DecidableEq, Repr

/-! ### users.service.ts repository methods -/

def findByEmail (db : DB) (email : String) : Option User :=
  db.users.find? (fun u => u.email == email)

def findById (db : DB) (id : String) : Option User :=
  db.users.find? (fun u => u.id == id)

def updateUser (db : DB) (id : String) (f : User → User) : DB :=
  { db with users := db.users.map (fun u => if u.id = id then f u else u) }

/-- users.service.ts createOtp: deletes every Otp row for (userId, purpose),
then inserts a fresh row with attempts = 0. -/
def createOtp (db : DB) (userId : String) (purpose : OtpPurpose) (otpHash : BHash String)
    (expiresAt : Nat) (maxAttempts : Nat) (freshId : String) : DB :=
  let cleaned := db.otps.filter (fun o => !(o.userId == userId && o.purpose == purpose))
  { db with
    otps := cleaned ++ [{ id := freshId, userId := userId, purpose := purpose,
                          otpHash := otpHash, attempts := 0, maxAttempts := maxAttempts,
                          expiresAt := expiresAt, usedAt := none }] }

/-- users.service.ts findValidOtp: first Otp row for (userId, purpose) with
usedAt null and expiresAt strictly in the future. -/
def findValidOtp (db : DB) (userId : String) (purpose : OtpPurpose) (now : Nat) : Option Otp :=
  db.otps.find? (fun o =>
    o.userId == userId && o.purpose == purpose && o.usedAt == none && decide (now < o.expiresAt))

def updateOtp (db : DB) (id : String) (f : Otp → Otp) : DB :=
  { db with otps := db.otps.map (fun o => if o.id = id then f o else o) }

def incrementOtpAttempts (db : DB) (id : String) : DB :=
  updateOtp db id (fun o => { o with attempts := o.attempts + 1 })

def markOtpAsUsed (db : DB) (id : String) (now : Nat) : DB :=
  updateOtp db id (fun o => { o with usedAt := some now })

/-! ### prisma.authToken queries used by auth.service.ts -/

def authTokenDeleteMany (db : DB) (userId : String) (purpose : AuthTokenPurpose) : DB :=
  { db with authTokens := db.authTokens.filter (fun t => !(t.userId == userId && t.purpose == purpose)) }

def authTokenCreate (db : DB) (t : AuthToken) : DB :=
  { db with authTokens := db.authTokens ++ [t] }

/-- prisma.authToken.findFirst with where-clause
(tokenHash, purpose, usedAt: null, expiresAt: gt now). -/
def authTokenFindFirstValidByHash (db : DB) (h : BHash String) (purpose : AuthTokenPurpose)
    (now : Nat) : Option AuthToken :=
  db.authTokens.find? (fun t =>
    t.tokenHash == h && t.purpose == purpose && t.usedAt == none && decide (now < t.expiresAt))

def authTokenMarkUsed (db : DB) (id : String) (now : Nat) : DB :=
  { db with authTokens := db.authTokens.map (fun t => if t.id = id then { t with usedAt := some now } else t) }

/-! ### auth.service.ts -/

structure AuthCredentials where
  email : String
  password : String
deriving DecidableEq, Repr

/-- auth.service.ts validateUser: verbatim lookup by credentials.email (no
normalization happens here), then OAuth-only check, then bcrypt compare. -/
def validateUser (db : DB) (c : AuthCredentials) : Option User :=
  match findByEmail db c.email with
  | none => none
  | some user =>
    match user.password with
    | none => none
    | some ph => if bcryptCompare c.password ph then some user else none

/-- Process configuration: the two independent JWT signing secrets. -/
structure Env where
  jwtSecret : String
  jwtRefreshSecret : String

/-- jwt.constants.ts ACCESS_TOKEN: 15 minutes, in milliseconds. -/
def ACCESS_TOKEN_MS : Nat := 15 * 60 * 1000

/-- jwt.constants.ts REFRESH_TOKEN: 7 days, in milliseconds. -/
def REFRESH_TOKEN_MS : Nat := 7 * 24 * 60 * 60 * 1000

structure TokenPair where
  accessToken : Jwt
  refreshToken : Jwt
deriving DecidableEq, Repr

/-- auth.service.ts getTokens: signs the claim set with the access secret and
the refresh secret respectively. -/
def getTokens (env : Env) (userId email : String) (role : UserRole) (isMasterAdmin : Bool)
    (now : Nat) : TokenPair :=
  { accessToken := jwtSign ⟨userId, email, role, isMasterAdmin⟩ env.jwtSecret now ACCESS_TOKEN_MS,
    refreshToken := jwtSign ⟨userId, email, role, isMasterAdmin⟩ env.jwtRefreshSecret now REFRESH_TOKEN_MS }

/-- auth.service.ts updateRefreshToken: stores bcrypt.hash(refreshToken, 10)
on the user row; the bcrypt salt is explicit. -/
def updateRefreshToken (db : DB) (userId : String) (tok : Jwt) (salt : Nat) : DB :=
  updateUser db userId (fun u => { u with refreshToken := some (bcryptHash tok salt) })

/-- auth.service.ts adminLogin: validateUser, then PLATFORM_ADMIN role gate,
then mint tokens and persist the refresh-token hash. -/
def adminLogin (env : Env) (db : DB) (c : AuthCredentials) (now salt : Nat) :
    Except AuthError (User × TokenPair × DB) :=
  match validateUser db c with
  | none => .error (.unauthorized "Invalid credentials")
  | some user =>
    if user.role ≠ UserRole.PLATFORM_ADMIN then
      .error (.unauthorized "Invalid credentials")
    else
      let tokens := getTokens env user.id user.email user.role user.isMasterAdmin now
      let db2 := updateRefreshToken db user.id tokens.refreshToken salt
      .ok (user, tokens, db2)

/-- auth.service.ts decodeRefreshToken: jwtService.verifyAsync against the
refresh secret; any verification failure becomes Unauthorized. -/
def decodeRefreshToken (env : Env) (t : Jwt) (now : Nat) : Except AuthError JwtPayload :=
  match jwtVerify t env.jwtRefreshSecret now with
  | some p => .ok p
  | none => .error (.unauthorized "Invalid or expired refresh token")

/-- auth.service.ts refreshToken: decode, load the account, compare the
presented token against the stored bcrypt hash, then rotate (mint a new pair
and overwrite the stored hash). -/
def refreshToken (env : Env) (db : DB) (t : Jwt) (now salt : Nat) :
    Except AuthError (User × TokenPair × DB) :=
  match decodeRefreshToken env t now with
  | .error e => .error e
  | .ok decoded =>
    match findById db decoded.sub with
    | none => .error (.unauthorized "Invalid or expired refresh token")
    | some user =>
      match user.refreshToken with
      | none => .error (.unauthorized "Invalid or expired refresh token")
      | some stored =>
        if bcryptCompare t stored then
          let tokens := getTokens env user.id user.email user.role user.isMasterAdmin now
          let db2 := updateRefreshToken db user.id tokens.refreshToken salt
          .ok (user, tokens, db2)
        else
          .error (.unauthorized "Invalid or expired refresh token")

/-- The constant response body of forgotPassword. -/
def FORGOT_PASSWORD_MESSAGE : String := "If the email exists, an OTP has been sent."

/-- auth.service.ts forgotPassword: looks the account up, generates and stores
a password-reset OTP when it exists (otp.service.ts generatePasswordResetOtp:
hashOtp, expiry now + OTP_EXPIRY_MINUTES, maxAttempts 3), and always returns
the same message; any exception inside the try block is caught and the same
message is returned.  storeFails models a throw from OTP generation/storage;
the fire-and-forget email dispatch has no effect on the response. -/
def forgotPassword (db : DB) (email : String) (otpCode : String) (otpSalt : Nat)
    (now expiryMinutes : Nat) (freshId : String) (storeFails : Bool) : String × DB :=
  match findByEmail db email with
  | none => (FORGOT_PASSWORD_MESSAGE, db)
  | some user =>
    if storeFails then
      (FORGOT_PASSWORD_MESSAGE, db)
    else
      let db2 := createOtp db user.id OtpPurpose.PASSWORD_RESET (hashOtp otpCode otpSalt)
        (now + expiryMinutes * 60 * 1000) 3 freshId
      (FORGOT_PASSWORD_MESSAGE, db2)

/-! ### otp.service.ts verifyPasswordResetOtpInternal

Failure can mutate the store (the failed-attempt counter), so the embedding
returns the database next to the outcome. -/

def verifyPasswordResetOtpInternal (db : DB) (email otpCode : String) (now usedTime : Nat) :
    DB × Except AuthError User :=
  match findByEmail db (jsToLowerCase email) with
  | none => (db, .error (.unauthorized "Invalid OTP"))
  | some user =>
    match findValidOtp db user.id OtpPurpose.PASSWORD_RESET now with
    | none => (db, .error (.unauthorized "Invalid or expired OTP"))
    | some otpRecord =>
      if otpRecord.maxAttempts ≤ otpRecord.attempts then
        (db, .error (.unauthorized "Too many failed attempts"))
      else if verifyOtp otpCode otpRecord.otpHash then
        (markOtpAsUsed db otpRecord.id usedTime, .ok user)
      else
        (incrementOtpAttempts db otpRecord.id, .error (.unauthorized "Invalid OTP"))

/-- auth.service.ts verifyResetOtp: OTP verification, then mint the plaintext
reset token (crypto.randomBytes(32).toString(hex), passed in explicitly),
store its bcrypt hash with a 15-minute expiry after purging earlier reset
tokens, and hand the plaintext back to the caller. -/
def verifyResetOtp (db : DB) (email otp : String) (now usedTime : Nat)
    (resetTokenPlain : String) (tokenSalt : Nat) (freshId : String) :
    DB × Except AuthError String :=
  match verifyPasswordResetOtpInternal db email otp now usedTime with
  | (db1, .error e) => (db1, .error e)
  | (db1, .ok user) =>
    let tokenHash := hashResetToken resetTokenPlain tokenSalt
    let tokenExpiresAt := now + 15 * 60 * 1000
    let db2 := authTokenDeleteMany db1 user.id AuthTokenPurpose.PASSWORD_RESET
    let db3 := authTokenCreate db2
      { id := freshId, userId := user.id, purpose := AuthTokenPurpose.PASSWORD_RESET,
        tokenHash := tokenHash, expiresAt := tokenExpiresAt, usedAt := none }
    (db3, .ok resetTokenPlain)

/-- auth.service.ts resetPassword: password checks, then
hashResetToken(resetToken) — bcrypt with a fresh salt (lookupSalt) — and a
findFirst on string equality of that hash, then verifyResetToken, password
update with refresh-token clearing, mark-used and purge. -/
def resetPassword (db : DB) (resetToken newPassword confirmPassword : String)
    (now lookupSalt pwSalt usedTime : Nat) : DB × Except AuthError String :=
  if newPassword ≠ confirmPassword then
    (db, .error (.badRequest "Passwords do not match"))
  else if newPassword.length < 8 then
    (db, .error (.badRequest "Password must be at least 8 characters long"))
  else
    let tokenHash := hashResetToken resetToken lookupSalt
    match authTokenFindFirstValidByHash db tokenHash AuthTokenPurpose.PASSWORD_RESET now with
    | none => (db, .error (.unauthorized "Invalid or expired reset token"))
    | some tokenRecord =>
      if verifyResetToken resetToken tokenRecord.tokenHash then
        let db2 := updateUser db tokenRecord.userId
          (fun u => { u with password := some (bcryptHash newPassword pwSalt), refreshToken := none })
        let db3 := authTokenMarkUsed db2 tokenRecord.id usedTime
        let db4 := authTokenDeleteMany db3 tokenRecord.userId AuthTokenPurpose.PASSWORD_RESET
        (db4, .ok "Password reset successfully")
      else
        (db, .error (.unauthorized "Invalid reset token"))

/-! ### auth.mapper.ts -/

structure LoginRequestDto where
  email : String
  password : String
deriving DecidableEq, Repr

/-- auth.mapper.ts loginRequestToCredentials: rejects missing (falsy, i.e.
empty) email or password, then sets email := dto.email.toLowerCase().trim(). -/
def loginRequestToCredentials (dto : LoginRequestDto) : Except AuthError AuthCredentials :=
  if dto.email = "" ∨ dto.password = "" then
    .error (.badRequest "Email and password are required")
  else
    .ok { email := jsTrim (jsToLowerCase dto.email), password := dto.password }

/-! ### otp.service.ts generateOtpCode

The do-while rejection-sampling loop reads 3 random bytes per iteration; the
stream of draws (each the big-endian value of 3 bytes, < 2^24) is explicit,
and a run that never draws below the rejection limit is `none`. -/

def OTP_MAX : Nat := 900000

def OTP_RANGE : Nat := 16777216

def OTP_LIMIT : Nat := (OTP_RANGE / OTP_MAX) * OTP_MAX

def generateOtpCode (draws : List Nat) : Option String :=
  match draws.find? (fun d => decide (d < OTP_LIMIT)) with
  | none => none
  | some d => some (Nat.repr (d % OTP_MAX + 100000))

/-! ### EncryptionUtil (AES-256-GCM wrapper)

Byte buffers are lists of byte values.  The AES-GCM block-cipher core and the
Buffer/pbkdf2 primitives are external library code (node crypto), so they are
parameters of the embedding; every theorem below holds for all of them.  What
is translated literally from the source is the repository code: guards,
constants, buffer layout, slicing offsets, error handling — and the argument
order of the createCipheriv / createDecipheriv calls. -/

structure AesGcmCore where
  encBytes : List Nat → List Nat → List Nat → (List Nat × List Nat)
  decBytes : List Nat → List Nat → List Nat → List Nat → Option (List Nat)

structure NodeBufferApi where
  utf8Encode : String → List Nat
  utf8Decode : List Nat → String
  b64Encode : List Nat → String
  b64Decode : String → List Nat
  pbkdf2Sha512 : String → List Nat → Nat → Nat → List Nat

/-- aes-256 key size in bytes. -/
def AES_256_KEY_LENGTH : Nat := 32

def SALT_LENGTH : Nat := 64

def IV_LENGTH : Nat := 16

def TAG_LENGTH : Nat := 16

def TAG_POSITION : Nat := SALT_LENGTH + IV_LENGTH

/-- node crypto.createCipheriv(algorithm, key, iv): for aes-256-gcm a key that
is not exactly 32 bytes is rejected (ERR_CRYPTO_INVALID_KEYLEN). -/
def createCipheriv (core : AesGcmCore) (key iv : List Nat) :
    Except String (List Nat → List Nat × List Nat) :=
  if key.length = AES_256_KEY_LENGTH then .ok (core.encBytes key iv)
  else .error "Invalid key length"

/-- node crypto.createDecipheriv(algorithm, key, iv): same key-length gate. -/
def createDecipheriv (core : AesGcmCore) (key iv : List Nat) :
    Except String (List Nat → List Nat → Option (List Nat)) :=
  if key.length = AES_256_KEY_LENGTH then .ok (core.decBytes key iv)
  else .error "Invalid key length"

/-- EncryptionUtil.encrypt.  salt and iv are the crypto.randomBytes draws
(lengths 64 and 16).  The source line
  crypto.createCipheriv(this.ALGORITHM, iv, key)
passes iv in the key position and key in the iv position, translated here
verbatim; the exception from createCipheriv propagates (no try/catch in
encrypt). -/
def EncryptionUtil.encrypt (core : AesGcmCore) (api : NodeBufferApi)
    (plaintext secretKey : String) (salt iv : List Nat) : Except String String :=
  if plaintext = "" then .ok plaintext
  else if secretKey.length < 32 then
    .error "Encryption requires a 32-character ENCRYPTION_KEY"
  else
    let key := api.pbkdf2Sha512 secretKey salt 100000 32
    match createCipheriv core iv key with
    | .error e => .error e
    | .ok cipherFn =>
      let r := cipherFn (api.utf8Encode plaintext)
      .ok (api.b64Encode (salt ++ iv ++ r.snd ++ r.fst))

/-- EncryptionUtil.decrypt.  Buffer.subarray clamps, exactly as take/drop do.
The whole body after the key-length guard sits in a try block whose catch
rethrows the one generic error; the source line
  crypto.createDecipheriv(this.ALGORITHM, iv, key)
again passes the iv slice in the key position. -/
def EncryptionUtil.decrypt (core : AesGcmCore) (api : NodeBufferApi)
    (ciphertextBase64 secretKey : String) : Except String String :=
  if ciphertextBase64 = "" then .ok ciphertextBase64
  else if secretKey.length < 32 then
    .error "Decryption requires a 32-character ENCRYPTION_KEY"
  else
    let buffer := api.b64Decode ciphertextBase64
    let salt := buffer.take SALT_LENGTH
    let iv := (buffer.drop SALT_LENGTH).take IV_LENGTH
    let tag := (buffer.drop TAG_POSITION).take TAG_LENGTH
    let encrypted := buffer.drop (TAG_POSITION + TAG_LENGTH)
    let key := api.pbkdf2Sha512 secretKey salt 100000 32
    match createDecipheriv core iv key with
    | .error _ => .error "Failed to decrypt token securely."
    | .ok decipherFn =>
      match decipherFn tag encrypted with
      | none => .error "Failed to decrypt token securely."
      | some ptBytes => .ok (api.utf8Decode ptBytes)

/-- A sample instantiation of the external cipher core, used only to evaluate
theorems that hold for every core at concrete inputs. -/
def sampleGcmCore : AesGcmCore :=
  { encBytes := fun _ _ p => (p, List.replicate TAG_LENGTH 0),
    decBytes := fun _ _ _ c => some c }

/-- A sample instantiation of the external Buffer/pbkdf2 primitives, used only
to evaluate theorems that hold for every instantiation at concrete inputs. -/
def sampleBufferApi : NodeBufferApi :=
  { utf8Encode := fun s => s.data.map Char.toNat,
    utf8Decode := fun l => String.mk (l.map Char.ofNat),
    b64Encode := fun _ => "",
    b64Decode := fun s => s.data.map Char.toNat,
    pbkdf2Sha512 := fun _ _ _ keylen => List.replicate keylen 0 }

/-! ### Claims -/

/-- Claim C10: forgotPassword returns the identical success message for every
email input — whether or not an account with that email exists, and even when
OTP generation or storage throws internally — so the observable response is
independent of account existence. -/
theorem C10_forgotPassword_constant_response (db : DB) (email otpCode : String)
    (otpSalt now expiryMinutes : Nat) (freshId : String) (storeFails : Bool) :
    (forgotPassword db email otpCode otpSalt now expiryMinutes freshId storeFails).fst
      = "If the email exists, an OTP has been sent." := by
  unfold forgotPassword
  cases h : findByEmail db email with
  | none => rfl
  | some user => cases storeFails <;> rfl

/-- Claim C7: adminLogin rejects a REGULAR-role account presenting the correct
password with an error identical in class and message to the error for a wrong
password and to the error for an unknown email. -/
theorem C7_adminLogin_indistinguishable (env : Env) (db : DB) (u : User)
    (e pw pw2 e3 : String) (ph : BHash String) (now salt : Nat)
    (hfind : findByEmail db e = some u)
    (hpw : u.password = some ph)
    (hok : bcryptCompare pw ph = true)
    (hrole : u.role = UserRole.REGULAR)
    (hbad : bcryptCompare pw2 ph = false)
    (hunknown : findByEmail db e3 = none) :
    adminLogin env db ⟨e, pw⟩ now salt = .error (.unauthorized "Invalid credentials") ∧
    adminLogin env db ⟨e, pw2⟩ now salt = .error (.unauthorized "Invalid credentials") ∧
    adminLogin env db ⟨e3, pw⟩ now salt = .error (.unauthorized "Invalid credentials") := by
  refine ⟨?_, ?_, ?_⟩
  · simp [adminLogin, validateUser, hfind, hpw, hok, hrole]
  · simp [adminLogin, validateUser, hfind, hpw, hbad]
  · simp [adminLogin, validateUser, hunknown]

def c7Env : Env := { jwtSecret := "access-secret", jwtRefreshSecret := "refresh-secret" }

def c7User : User :=
  { id := "u1", email := "a@x.com", password := some ⟨0, "password1"⟩, name := "A",
    role := .REGULAR, isMasterAdmin := false, refreshToken := none, emailVerified := true }

def c7Db : DB := { users := [c7User], otps := [], authTokens := [] }

/-- Witness for C7 at a concrete store. -/
theorem C7_adminLogin_indistinguishable_witness :
    adminLogin c7Env c7Db ⟨"a@x.com", "password1"⟩ 5 1 = .error (.unauthorized "Invalid credentials") ∧
    adminLogin c7Env c7Db ⟨"a@x.com", "wrongpass"⟩ 5 1 = .error (.unauthorized "Invalid credentials") ∧
    adminLogin c7Env c7Db ⟨"nobody@x.com", "password1"⟩ 5 1 = .error (.unauthorized "Invalid credentials") :=
  C7_adminLogin_indistinguishable c7Env c7Db c7User "a@x.com" "password1" "wrongpass"
    "nobody@x.com" ⟨0, "password1"⟩ 5 1 (by decide) (by decide) (by decide) (by decide)
    (by decide) (by decide)

def c8User : User :=
  { id := "u1", email := "a@x.com", password := some ⟨0, "password1"⟩, name := "A",
    role := .REGULAR, isMasterAdmin := false, refreshToken := none, emailVerified := true }

def c8Db : DB := { users := [c8User], otps := [], authTokens := [] }

/-- Counterexample to claim C8: validateUser itself performs no normalization;
with the account stored under a lowercase email, the same password submitted
with an uppercase-spelled email fails while the lowercase spelling succeeds,
so the two submissions do not resolve to the same account. -/
theorem C8_counterexample :
    validateUser c8Db ⟨"A@x.com", "password1"⟩ = none ∧
    validateUser c8Db ⟨"a@x.com", "password1"⟩ = some c8User := by
  decide

/-- Claim C8 (amended): the email normalization (toLowerCase then trim) is
performed by the request mapper loginRequestToCredentials before validateUser
is invoked, so two login requests whose emails agree after lowercasing and
trimming produce identical credentials. -/
theorem C8_amended_mapper_normalizes (e1 e2 p : String)
    (hnorm : jsTrim (jsToLowerCase e1) = jsTrim (jsToLowerCase e2))
    (h1 : e1 ≠ "") (h2 : e2 ≠ "") (hp : p ≠ "") :
    loginRequestToCredentials ⟨e1, p⟩ = .ok ⟨jsTrim (jsToLowerCase e1), p⟩ ∧
    loginRequestToCredentials ⟨e2, p⟩ = .ok ⟨jsTrim (jsToLowerCase e1), p⟩ := by
  constructor
  · simp [loginRequestToCredentials, h1, hp]
  · simp [loginRequestToCredentials, h2, hp, hnorm]

/-- Witness for C8 (amended): two emails differing only in case and
surrounding whitespace map to the same credentials. -/
theorem C8_amended_mapper_normalizes_witness :
    loginRequestToCredentials ⟨"A@X.com ", "password1"⟩ = .ok ⟨"a@x.com", "password1"⟩ ∧
    loginRequestToCredentials ⟨" a@x.com", "password1"⟩ = .ok ⟨"a@x.com", "password1"⟩ := by
  have h := C8_amended_mapper_normalizes "A@X.com " " a@x.com" "password1"
    (by decide) (by decide) (by decide) (by decide)
  rw [show jsTrim (jsToLowerCase "A@X.com ") = "a@x.com" from by decide] at h
  exact h

/-- Claim C2 (code bug): for every cipher core and Buffer/pbkdf2 primitive,
every non-empty plaintext and every key of length at least 32,
EncryptionUtil.encrypt throws: the source passes the 16-byte random iv in the
key position of createCipheriv, and aes-256-gcm rejects a 16-byte key, so no
ciphertext is ever produced and the encrypt/decrypt round trip never returns
the plaintext. -/
theorem C2_encrypt_always_throws_invalid_key_length (core : AesGcmCore) (api : NodeBufferApi)
    (plaintext secretKey : String) (salt iv : List Nat)
    (hpt : plaintext ≠ "") (hkey : 32 ≤ secretKey.length) (hiv : iv.length = IV_LENGTH) :
    EncryptionUtil.encrypt core api plaintext secretKey salt iv = .error "Invalid key length" := by
  unfold EncryptionUtil.encrypt createCipheriv
  rw [if_neg hpt, if_neg (by omega)]
  rw [hiv]
  norm_num [IV_LENGTH, AES_256_KEY_LENGTH]

/-- Witness for C2: the failure at the concrete inputs of the repository's own
encryption e2e test (its 47-character test key). -/
theorem C2_encrypt_always_throws_invalid_key_length_witness :
    EncryptionUtil.encrypt sampleGcmCore sampleBufferApi "super-secret-linkedin-access-token"
      "super-secret-key-for-testing-only-with-32-chars" (List.replicate 64 7) (List.replicate 16 9)
      = .error "Invalid key length" :=
  C2_encrypt_always_throws_invalid_key_length sampleGcmCore sampleBufferApi
    "super-secret-linkedin-access-token" "super-secret-key-for-testing-only-with-32-chars"
    (List.replicate 64 7) (List.replicate 16 9) (by decide) (by decide) (by decide)

/-- Counterexample to claim C6: the empty string is not a valid encryption of
any plaintext under the key (a valid payload carries a 64-byte salt, a 16-byte
iv and a 16-byte tag), yet decrypt returns it unchanged as a plaintext string
instead of failing, because of the falsy-input guard at the top of decrypt. -/
theorem C6_counterexample :
    EncryptionUtil.decrypt sampleGcmCore sampleBufferApi ""
      "super-secret-key-for-testing-only-with-32-chars" = .ok "" := by
  rfl

/-- Claim C6 (amended): for every cipher core and Buffer/pbkdf2 primitive,
every key of length at least 32 and every NON-EMPTY input string — which
covers every wrong-key, tampered or truncated payload — decrypt fails with the
generic decryption error and never returns a plaintext string; only the empty
string is passed through unchanged by the falsy-input guard. -/
theorem C6_amended_decrypt_fails_closed (core : AesGcmCore) (api : NodeBufferApi)
    (input secretKey : String)
    (hin : input ≠ "") (hkey : 32 ≤ secretKey.length) :
    EncryptionUtil.decrypt core api input secretKey = .error "Failed to decrypt token securely." := by
  unfold EncryptionUtil.decrypt createDecipheriv
  rw [if_neg hin, if_neg (by omega)]
  have hlen : (List.take IV_LENGTH (List.drop SALT_LENGTH (api.b64Decode input))).length ≠ AES_256_KEY_LENGTH := by
    have := List.length_take IV_LENGTH (List.drop SALT_LENGTH (api.b64Decode input))
    simp only [IV_LENGTH, AES_256_KEY_LENGTH] at *
    omega
  simp only [if_neg hlen]

/-- Witness for C6 (amended): a concrete truncated payload fails closed. -/
theorem C6_amended_decrypt_fails_closed_witness :
    EncryptionUtil.decrypt sampleGcmCore sampleBufferApi "AAAA"
      "super-secret-key-for-testing-only-with-32-chars"
      = .error "Failed to decrypt token securely." :=
  C6_amended_decrypt_fails_closed sampleGcmCore sampleBufferApi "AAAA"
    "super-secret-key-for-testing-only-with-32-chars" (by decide) (by decide)

/-- Claim C1 (code bug): resetPassword recomputes hashResetToken(resetToken)
with a fresh bcrypt salt and looks the stored record up by string equality on
that hash; since a bcrypt hash embeds its salt, the fresh hash differs from
the stored hash whenever the fresh salt differs from every stored salt, so the
findFirst lookup never matches and resetPassword fails Unauthorized even when
a valid, unexpired, unused token record for the presented plaintext exists and
the password checks pass. -/
theorem C1_resetPassword_lookup_never_matches (db : DB) (tok newPw : String)
    (now lookupSalt pwSalt usedTime : Nat)
    (hfresh : ∀ t ∈ db.authTokens, t.tokenHash.salt ≠ lookupSalt)
    (hlen : 8 ≤ newPw.length) :
    resetPassword db tok newPw newPw now lookupSalt pwSalt usedTime
      = (db, .error (.unauthorized "Invalid or expired reset token")) := by
  unfold resetPassword
  rw [if_neg (by simp), if_neg (by omega)]
  have hnone : authTokenFindFirstValidByHash db (hashResetToken tok lookupSalt)
      AuthTokenPurpose.PASSWORD_RESET now = none := by
    unfold authTokenFindFirstValidByHash
    rw [List.find?_eq_none]
    intro t ht hpred
    simp only [Bool.and_eq_true, beq_iff_eq, decide_eq_true_eq] at hpred
    exact hfresh t ht (by rw [hpred.1.1.1]; rfl)
  simp only [hnone]

def c1User : User :=
  { id := "u1", email := "u@x.com", password := some ⟨0, "oldpassword"⟩, name := "U",
    role := .REGULAR, isMasterAdmin := false, refreshToken := none, emailVerified := true }

def c1Otp : Otp :=
  { id := "o1", userId := "u1", purpose := .PASSWORD_RESET, otpHash := ⟨2, "123456"⟩,
    attempts := 0, maxAttempts := 3, expiresAt := 10, usedAt := none }

def c1Db : DB := { users := [c1User], otps := [c1Otp], authTokens := [] }

/-- Witness for C1: a reset token freshly issued by verifyResetOtp (stored
with bcrypt salt 5, expiry now + 15 minutes), presented unexpired with equal
8+-character passwords, is still rejected Unauthorized because the lookup
rehashes it with the fresh bcrypt salt 6. -/
theorem C1_resetPassword_lookup_never_matches_witness :
    (verifyResetOtp c1Db "u@x.com" "123456" 0 1 "plaintext-reset-token" 5 "at1").snd
      = .ok "plaintext-reset-token" ∧
    resetPassword (verifyResetOtp c1Db "u@x.com" "123456" 0 1 "plaintext-reset-token" 5 "at1").fst
        "plaintext-reset-token" "password1" "password1" 2 6 7 3
      = ((verifyResetOtp c1Db "u@x.com" "123456" 0 1 "plaintext-reset-token" 5 "at1").fst,
         .error (.unauthorized "Invalid or expired reset token")) :=
  ⟨by decide,
   C1_resetPassword_lookup_never_matches
     (verifyResetOtp c1Db "u@x.com" "123456" 0 1 "plaintext-reset-token" 5 "at1").fst
     "plaintext-reset-token" "password1" 2 6 7 3 (by decide) (by decide)⟩

/-- A user update that preserves ids commutes with lookup by id. -/
theorem find?_map_id_preserving (l : List User) (uid key : String) (f : User → User)
    (hid : ∀ u, (f u).id = u.id) :
    (l.map (fun u => if u.id = uid then f u else u)).find? (fun u => u.id == key)
      = (l.find? (fun u => u.id == key)).map (fun u => if u.id = uid then f u else u) := by
  induction l with
  | nil => rfl
  | cons a l ih =>
    have hp : (((if a.id = uid then f a else a).id == key)) = (a.id == key) := by
      by_cases ha : a.id = uid <;> simp [ha, hid]
    rw [List.map_cons, List.find?_cons, List.find?_cons, hp]
    cases hk : (a.id == key) with
    | true => rfl
    | false => simpa using ih

/-- findById after updateRefreshToken sees the updated record. -/
theorem findById_updateRefreshToken (db : DB) (uid key : String) (tok : Jwt) (salt : Nat) :
    findById (updateRefreshToken db uid tok salt) key
      = (findById db key).map
          (fun u => if u.id = uid then { u with refreshToken := some (bcryptHash tok salt) } else u) := by
  unfold findById updateRefreshToken updateUser
  exact find?_map_id_preserving db.users uid key _ (fun u => rfl)

/-- Claim C3: with a stored refresh-token hash matching a previously issued
token, the first refreshToken call succeeds, returns a new access+refresh
pair, and overwrites the stored hash with the hash of the new refresh token;
a second call with the original (now stale) token then fails Unauthorized.
The hypothesis tok.iat ≠ now1 says the presented token was issued at a
different second than the rotation (jsonwebtoken would mint a byte-identical
token if every claim including iat coincided). -/
theorem C3_refreshToken_rotation (env : Env) (db : DB) (u : User) (tok : Jwt)
    (s0 now1 salt1 now2 salt2 : Nat)
    (hfind : findById db tok.payload.sub = some u)
    (hsec : tok.secret = env.jwtRefreshSecret)
    (hexp : now1 < tok.expMs)
    (hstored : u.refreshToken = some (bcryptHash tok s0))
    (hiat : tok.iat ≠ now1) :
    refreshToken env db tok now1 salt1
      = .ok (u, getTokens env u.id u.email u.role u.isMasterAdmin now1,
             updateRefreshToken db u.id
               (getTokens env u.id u.email u.role u.isMasterAdmin now1).refreshToken salt1) ∧
    refreshToken env
        (updateRefreshToken db u.id
          (getTokens env u.id u.email u.role u.isMasterAdmin now1).refreshToken salt1)
        tok now2 salt2
      = .error (.unauthorized "Invalid or expired refresh token") := by
  have hcmp : bcryptCompare tok (bcryptHash tok s0) = true := by
    simp [bcryptCompare, bcryptHash]
  constructor
  · simp [refreshToken, decodeRefreshToken, jwtVerify, hsec, hexp, hfind, hstored, hcmp]
  · by_cases hexp2 : now2 < tok.expMs
    · have hneq : tok ≠ (getTokens env u.id u.email u.role u.isMasterAdmin now1).refreshToken := by
        intro hcontra
        apply hiat
        have := congrArg Jwt.iat hcontra
        simpa [getTokens, jwtSign] using this
      have hfind2 : findById
          (updateRefreshToken db u.id
            (getTokens env u.id u.email u.role u.isMasterAdmin now1).refreshToken salt1)
          tok.payload.sub
          = some { u with
              refreshToken := some (bcryptHash (getTokens env u.id u.email u.role u.isMasterAdmin now1).refreshToken salt1) } := by
        rw [findById_updateRefreshToken, hfind]
        have huid : u.id = tok.payload.sub := by
          have := List.find?_some hfind
          simpa [findById] using this
        simp
      have hcmp2 : bcryptCompare tok
          (bcryptHash (getTokens env u.id u.email u.role u.isMasterAdmin now1).refreshToken salt1) = false := by
        simp [bcryptCompare, bcryptHash, hneq]
      simp [refreshToken, decodeRefreshToken, jwtVerify, hsec, hexp2, hfind2, hcmp2]
    · simp [refreshToken, decodeRefreshToken, jwtVerify, hsec, hexp2]

def c3Env : Env := { jwtSecret := "access-secret", jwtRefreshSecret := "refresh-secret" }

def c3Tok : Jwt :=
  { payload := { sub := "u1", email := "a@x.com", role := .PLATFORM_ADMIN, isMasterAdmin := false },
    secret := "refresh-secret", iat := 0, expMs := 604800000 }

def c3User : User :=
  { id := "u1", email := "a@x.com", password := some ⟨0, "password1"⟩, name := "A",
    role := .PLATFORM_ADMIN, isMasterAdmin := false, refreshToken := some ⟨3, c3Tok⟩,
    emailVerified := true }

def c3Db : DB := { users := [c3User], otps := [], authTokens := [] }

/-- Witness for C3 at a concrete account and token. -/
theorem C3_refreshToken_rotation_witness :
    refreshToken c3Env c3Db c3Tok 5000 11
      = .ok (c3User, getTokens c3Env c3User.id c3User.email c3User.role c3User.isMasterAdmin 5000,
             updateRefreshToken c3Db c3User.id
               (getTokens c3Env c3User.id c3User.email c3User.role c3User.isMasterAdmin 5000).refreshToken 11) ∧
    refreshToken c3Env
        (updateRefreshToken c3Db c3User.id
          (getTokens c3Env c3User.id c3User.email c3User.role c3User.isMasterAdmin 5000).refreshToken 11)
        c3Tok 6000 12
      = .error (.unauthorized "Invalid or expired refresh token") :=
  C3_refreshToken_rotation c3Env c3Db c3User c3Tok 3 5000 11 6000 12
    (by decide) (by decide) (by decide) (by decide) (by decide)

/-- On a store holding exactly one OTP row that is unused and unexpired for
the right account and purpose, findValidOtp returns it. -/
theorem findValidOtp_single (db : DB) (rec : Otp) (uid : String) (p : OtpPurpose) (now : Nat)
    (hotps : db.otps = [rec]) (huid : rec.userId = uid) (hp : rec.purpose = p)
    (hused : rec.usedAt = none) (he : now < rec.expiresAt) :
    findValidOtp db uid p now = some rec := by
  unfold findValidOtp
  rw [hotps]
  simp [List.find?, huid, hp, hused, he]

/-- A wrong guess below the attempt ceiling increments the counter and fails
with the generic Unauthorized error. -/
theorem verifyPasswordResetOtp_wrong_step (db : DB) (u : User) (rec : Otp)
    (email wrong : String) (n t : Nat)
    (hu : findByEmail db (jsToLowerCase email) = some u)
    (hotps : db.otps = [rec]) (huid : rec.userId = u.id)
    (hpurp : rec.purpose = OtpPurpose.PASSWORD_RESET)
    (hused : rec.usedAt = none) (hlt : rec.attempts < rec.maxAttempts)
    (he : n < rec.expiresAt)
    (hw : verifyOtp wrong rec.otpHash = false) :
    verifyPasswordResetOtpInternal db email wrong n t
      = ({ db with otps := [{ rec with attempts := rec.attempts + 1 }] },
         .error (.unauthorized "Invalid OTP")) := by
  unfold verifyPasswordResetOtpInternal
  simp only [hu, findValidOtp_single db rec u.id OtpPurpose.PASSWORD_RESET n hotps huid hpurp hused he]
  rw [if_neg (by omega), if_neg (by simp [hw])]
  unfold incrementOtpAttempts updateOtp
  rw [hotps]
  simp

/-- Once the counter has reached the ceiling, every further attempt — correct
code included — fails with Unauthorized and leaves the store unchanged. -/
theorem verifyPasswordResetOtp_locked_step (db : DB) (u : User) (rec : Otp)
    (email code : String) (n t : Nat)
    (hu : findByEmail db (jsToLowerCase email) = some u)
    (hotps : db.otps = [rec]) (huid : rec.userId = u.id)
    (hpurp : rec.purpose = OtpPurpose.PASSWORD_RESET)
    (hused : rec.usedAt = none) (hge : rec.maxAttempts ≤ rec.attempts)
    (he : n < rec.expiresAt) :
    verifyPasswordResetOtpInternal db email code n t
      = (db, .error (.unauthorized "Too many failed attempts")) := by
  unfold verifyPasswordResetOtpInternal
  simp only [hu, findValidOtp_single db rec u.id OtpPurpose.PASSWORD_RESET n hotps huid hpurp hused he]
  rw [if_pos hge]

/-- A correct guess below the ceiling marks the row used and succeeds. -/
theorem verifyPasswordResetOtp_correct_step (db : DB) (u : User) (rec : Otp)
    (email code : String) (n t : Nat)
    (hu : findByEmail db (jsToLowerCase email) = some u)
    (hotps : db.otps = [rec]) (huid : rec.userId = u.id)
    (hpurp : rec.purpose = OtpPurpose.PASSWORD_RESET)
    (hused : rec.usedAt = none) (hlt : rec.attempts < rec.maxAttempts)
    (he : n < rec.expiresAt)
    (hc : verifyOtp code rec.otpHash = true) :
    verifyPasswordResetOtpInternal db email code n t = (markOtpAsUsed db rec.id t, .ok u) := by
  unfold verifyPasswordResetOtpInternal
  simp only [hu, findValidOtp_single db rec u.id OtpPurpose.PASSWORD_RESET n hotps huid hpurp hused he]
  rw [if_neg (by omega), if_pos (by simp [hc])]

def c4User : User :=
  { id := "u1", email := "u@x.com", password := some ⟨0, "oldpassword"⟩, name := "U",
    role := .REGULAR, isMasterAdmin := false, refreshToken := none, emailVerified := true }

def c4Otp : Otp :=
  { id := "o1", userId := "u1", purpose := .PASSWORD_RESET, otpHash := ⟨2, "123456"⟩,
    attempts := 0, maxAttempts := 3, expiresAt := 100, usedAt := none }

def c4Db : DB := { users := [c4User], otps := [c4Otp], authTokens := [] }

/-- The concrete four-attempt run behind the C4 counterexample: three wrong
guesses followed by the correct code, all within the expiry window. -/
def c4Run : DB × Except AuthError User :=
  let r1 := verifyPasswordResetOtpInternal c4Db "u@x.com" "000000" 1 90
  let r2 := verifyPasswordResetOtpInternal r1.fst "u@x.com" "000000" 2 90
  let r3 := verifyPasswordResetOtpInternal r2.fst "u@x.com" "000000" 3 90
  verifyPasswordResetOtpInternal r3.fst "u@x.com" "123456" 4 90

/-- Counterexample to claim C4: with maxAttempts = 3 (the password-reset
purpose), three wrong guesses followed by a fourth attempt with the correct
code fails with UnauthorizedException, which is NOT the RateLimited
(HTTP 429) signal the claim requires. -/
theorem C4_counterexample :
    c4Run.snd = .error (.unauthorized "Too many failed attempts") ∧
    (AuthError.unauthorized "Too many failed attempts").isRateLimited = false := by
  decide

/-- Claim C4 (amended): for an OTP record with maxAttempts = 3, after three
consecutive wrong guesses a fourth verification attempt — even with the
correct code — fails with UnauthorizedException("Too many failed attempts"),
not with success; the password-reset flow maps attempt exhaustion to the
generic Unauthorized class (HTTP 401), not to the RateLimited (HTTP 429)
signal the signup flow uses. -/
theorem C4_amended_fourth_attempt_unauthorized (db : DB) (u : User) (rec : Otp)
    (email wrong correct : String) (n1 n2 n3 n4 t1 t2 t3 t4 : Nat)
    (hu : findByEmail db (jsToLowerCase email) = some u)
    (hotps : db.otps = [rec])
    (huid : rec.userId = u.id)
    (hpurp : rec.purpose = OtpPurpose.PASSWORD_RESET)
    (hused : rec.usedAt = none)
    (hatt : rec.attempts = 0)
    (hmax : rec.maxAttempts = 3)
    (hw : verifyOtp wrong rec.otpHash = false)
    (_hc : verifyOtp correct rec.otpHash = true)
    (he1 : n1 < rec.expiresAt) (he2 : n2 < rec.expiresAt) (he3 : n3 < rec.expiresAt)
    (he4 : n4 < rec.expiresAt) :
    (verifyPasswordResetOtpInternal
      (verifyPasswordResetOtpInternal
        (verifyPasswordResetOtpInternal
          (verifyPasswordResetOtpInternal db email wrong n1 t1).fst
          email wrong n2 t2).fst
        email wrong n3 t3).fst
      email correct n4 t4)
      = ((verifyPasswordResetOtpInternal
          (verifyPasswordResetOtpInternal
            (verifyPasswordResetOtpInternal db email wrong n1 t1).fst
            email wrong n2 t2).fst
          email wrong n3 t3).fst,
         .error (.unauthorized "Too many failed attempts")) ∧
    (AuthError.unauthorized "Too many failed attempts").isRateLimited = false := by
  have h1 := verifyPasswordResetOtp_wrong_step db u rec email wrong n1 t1 hu hotps huid hpurp
    hused (by omega) he1 hw
  rw [h1]
  have h2 := verifyPasswordResetOtp_wrong_step { db with otps := [{ rec with attempts := rec.attempts + 1 }] }
    u { rec with attempts := rec.attempts + 1 } email wrong n2 t2
    (by simpa [findByEmail] using hu) (by simp) huid hpurp hused
    (by show rec.attempts + 1 < rec.maxAttempts; omega) he2 hw
  rw [h2]
  have h3 := verifyPasswordResetOtp_wrong_step { db with otps := [{ rec with attempts := rec.attempts + 1 + 1 }] }
    u { rec with attempts := rec.attempts + 1 + 1 } email wrong n3 t3
    (by simpa [findByEmail] using hu) (by simp) huid hpurp hused
    (by show rec.attempts + 1 + 1 < rec.maxAttempts; omega) he3 hw
  rw [h3]
  have h4 := verifyPasswordResetOtp_locked_step { db with otps := [{ rec with attempts := rec.attempts + 1 + 1 + 1 }] }
    u { rec with attempts := rec.attempts + 1 + 1 + 1 } email correct n4 t4
    (by simpa [findByEmail] using hu) (by simp) huid hpurp hused
    (by show rec.maxAttempts ≤ rec.attempts + 1 + 1 + 1; omega) he4
  rw [h4]
  exact ⟨rfl, rfl⟩

/-- Witness for C4 (amended) at the concrete store of the counterexample. -/
theorem C4_amended_fourth_attempt_unauthorized_witness :
    (verifyPasswordResetOtpInternal
      (verifyPasswordResetOtpInternal
        (verifyPasswordResetOtpInternal
          (verifyPasswordResetOtpInternal c4Db "u@x.com" "000000" 1 90).fst
          "u@x.com" "000000" 2 90).fst
        "u@x.com" "000000" 3 90).fst
      "u@x.com" "123456" 4 90)
      = ((verifyPasswordResetOtpInternal
          (verifyPasswordResetOtpInternal
            (verifyPasswordResetOtpInternal c4Db "u@x.com" "000000" 1 90).fst
            "u@x.com" "000000" 2 90).fst
          "u@x.com" "000000" 3 90).fst,
         .error (.unauthorized "Too many failed attempts")) ∧
    (AuthError.unauthorized "Too many failed attempts").isRateLimited = false :=
  C4_amended_fourth_attempt_unauthorized c4Db c4User c4Otp "u@x.com" "000000" "123456"
    1 2 3 4 90 90 90 90 (by decide) rfl (by decide) (by decide) (by decide) (by decide)
    (by decide) (by decide) (by decide) (by decide) (by decide) (by decide) (by decide)

/-- Claim C5: once a verification has succeeded and the record's usedAt is
set, no later verification for the same account and purpose ever accepts that
record again: findValidOtp only ever returns rows with usedAt null, a correct
code succeeds exactly once, and after the success every second verification —
same code included, at every later time — fails. -/
theorem C5_otp_used_terminal (db : DB) (u : User) (rec : Otp) (email code : String)
    (n1 t1 : Nat)
    (hu : findByEmail db (jsToLowerCase email) = some u)
    (hotps : db.otps = [rec])
    (huid : rec.userId = u.id)
    (hpurp : rec.purpose = OtpPurpose.PASSWORD_RESET)
    (hused : rec.usedAt = none)
    (hlt : rec.attempts < rec.maxAttempts)
    (he : n1 < rec.expiresAt)
    (hc : verifyOtp code rec.otpHash = true) :
    (∀ (db2 : DB) (uid : String) (p : OtpPurpose) (now : Nat) (r : Otp),
        findValidOtp db2 uid p now = some r → r.usedAt = none) ∧
    verifyPasswordResetOtpInternal db email code n1 t1 = (markOtpAsUsed db rec.id t1, .ok u) ∧
    (∀ (code2 : String) (n2 t2 : Nat),
        verifyPasswordResetOtpInternal (markOtpAsUsed db rec.id t1) email code2 n2 t2
          = (markOtpAsUsed db rec.id t1, .error (.unauthorized "Invalid or expired OTP"))) := by
  refine ⟨?_, ?_, ?_⟩
  · intro db2 uid p now r hfound
    have := List.find?_some hfound
    simp only [Bool.and_eq_true, beq_iff_eq, decide_eq_true_eq] at this
    exact this.1.2
  · exact verifyPasswordResetOtp_correct_step db u rec email code n1 t1 hu hotps huid hpurp
      hused hlt he hc
  · intro code2 n2 t2
    have husers : findByEmail (markOtpAsUsed db rec.id t1) (jsToLowerCase email) = some u := by
      simpa [findByEmail, markOtpAsUsed, updateOtp] using hu
    have hnone : findValidOtp (markOtpAsUsed db rec.id t1) u.id OtpPurpose.PASSWORD_RESET n2
        = none := by
      unfold findValidOtp markOtpAsUsed updateOtp
      rw [List.find?_eq_none]
      intro o ho
      simp only [hotps, List.map_cons, List.map_nil, List.mem_singleton, if_pos rfl] at ho
      subst ho
      simp
    unfold verifyPasswordResetOtpInternal
    simp only [husers, hnone]

def c5User : User :=
  { id := "u1", email := "u@x.com", password := some ⟨0, "oldpassword"⟩, name := "U",
    role := .REGULAR, isMasterAdmin := false, refreshToken := none, emailVerified := true }

def c5Otp : Otp :=
  { id := "o1", userId := "u1", purpose := .PASSWORD_RESET, otpHash := ⟨2, "654321"⟩,
    attempts := 0, maxAttempts := 3, expiresAt := 100, usedAt := none }

def c5Db : DB := { users := [c5User], otps := [c5Otp], authTokens := [] }

/-- Witness for C5: the just-generated correct code succeeds once and the same
code fails on the second attempt. -/
theorem C5_otp_used_terminal_witness :
    verifyPasswordResetOtpInternal c5Db "u@x.com" "654321" 1 50
      = (markOtpAsUsed c5Db c5Otp.id 50, .ok c5User) ∧
    verifyPasswordResetOtpInternal (markOtpAsUsed c5Db c5Otp.id 50) "u@x.com" "654321" 2 60
      = (markOtpAsUsed c5Db c5Otp.id 50, .error (.unauthorized "Invalid or expired OTP")) := by
  have h := C5_otp_used_terminal c5Db c5User c5Otp "u@x.com" "654321" 1 50
    (by decide) rfl (by decide) (by decide) (by decide) (by decide) (by decide) (by decide)
  exact ⟨h.2.1, h.2.2 "654321" 2 60⟩

/-- With enough fuel, toDigitsCore in base 10 emits exactly one character per
decimal digit of its input on top of the accumulator. -/
theorem toDigitsCore_ten_length (e : Nat) :
    ∀ (fuel n : Nat) (acc : List Char), 10 ^ e ≤ n → n < 10 ^ (e + 1) → e < fuel →
      (Nat.toDigitsCore 10 fuel n acc).length = e + 1 + acc.length := by
  induction e with
  | zero =>
    intro fuel n acc h1 h2 hf
    cases fuel with
    | zero => omega
    | succ f =>
      have hn : n / 10 = 0 := Nat.div_eq_of_lt (by simpa using h2)
      simp [Nat.toDigitsCore, hn]
      omega
  | succ e ih =>
    intro fuel n acc h1 h2 hf
    cases fuel with
    | zero => omega
    | succ f =>
      have h10 : (10 : Nat) ^ 1 ≤ 10 ^ (e + 1) := Nat.pow_le_pow_right (by norm_num) (by omega)
      have hge : 10 ≤ n := by simpa using le_trans h10 h1
      have hne : ¬ (n / 10 = 0) := by
        have : 1 ≤ n / 10 := (Nat.one_le_div_iff (by norm_num)).mpr hge
        omega
      have hdiv1 : 10 ^ e ≤ n / 10 := by
        rw [Nat.le_div_iff_mul_le (by norm_num)]
        calc 10 ^ e * 10 = 10 ^ (e + 1) := by ring
        _ ≤ n := h1
      have hdiv2 : n / 10 < 10 ^ (e + 1) := by
        rw [Nat.div_lt_iff_lt_mul (by norm_num)]
        calc n < 10 ^ (e + 1 + 1) := h2
        _ = 10 ^ (e + 1) * 10 := by ring
      simp only [Nat.toDigitsCore, hne, if_false]
      rw [ih f (n / 10) (Nat.digitChar (n % 10) :: acc) hdiv1 hdiv2 (by omega)]
      simp
      omega

/-- The decimal string of a natural number in [10^e, 10^(e+1)) has exactly
e + 1 characters. -/
theorem repr_length_exact (e v : Nat) (h1 : 10 ^ e ≤ v) (h2 : v < 10 ^ (e + 1)) :
    (Nat.repr v).length = e + 1 := by
  have hfuel : e < v + 1 := by
    have : e < 10 ^ e := Nat.lt_pow_self (by norm_num) e
    omega
  have := toDigitsCore_ten_length e (v + 1) v [] h1 h2 hfuel
  simpa [Nat.repr, Nat.toDigits, String.length, List.asString] using this

/-- Every character emitted by toDigitsCore in base 10 is an ASCII digit. -/
theorem toDigitsCore_ten_isDigit :
    ∀ (fuel n : Nat) (acc : List Char), (∀ c ∈ acc, c.isDigit = true) →
      ∀ c ∈ Nat.toDigitsCore 10 fuel n acc, c.isDigit = true := by
  intro fuel
  induction fuel with
  | zero => intro n acc h; simpa [Nat.toDigitsCore] using h
  | succ f ih =>
    intro n acc hacc
    have hd : (Nat.digitChar (n % 10)).isDigit = true := by
      have hlt : n % 10 < 10 := Nat.mod_lt _ (by norm_num)
      revert hlt
      generalize n % 10 = m
      intro hlt
      interval_cases m <;> decide
    have hcons : ∀ c ∈ Nat.digitChar (n % 10) :: acc, c.isDigit = true := by
      intro c hc
      rcases List.mem_cons.mp hc with h | h
      · rw [h]; exact hd
      · exact hacc c h
    simp only [Nat.toDigitsCore]
    by_cases h0 : n / 10 = 0
    · simpa [h0] using hcons
    · simpa [h0] using ih (n / 10) (Nat.digitChar (n % 10) :: acc) hcons

/-- Claim C9: the rejection-sampling loop terminates as soon as the byte
source yields a draw below the rejection limit, and every produced code is the
decimal string of a value in [100000, 999999], six ASCII digits long. -/
theorem C9_generateOtpCode_range (draws : List Nat) :
    ((∃ d, d ∈ draws ∧ d < OTP_LIMIT) → ∃ s, generateOtpCode draws = some s) ∧
    (∀ s, generateOtpCode draws = some s →
      ∃ v : Nat, s = Nat.repr v ∧ 100000 ≤ v ∧ v ≤ 999999 ∧ s.length = 6 ∧
        ∀ c ∈ s.data, c.isDigit = true) := by
  constructor
  · rintro ⟨d, hd, hlim⟩
    unfold generateOtpCode
    cases hfind : draws.find? (fun d => decide (d < OTP_LIMIT)) with
    | some x => exact ⟨_, rfl⟩
    | none =>
      rw [List.find?_eq_none] at hfind
      exact absurd (by simpa using hlim) (by simpa using hfind d hd)
  · intro s hs
    unfold generateOtpCode at hs
    cases hfind : draws.find? (fun d => decide (d < OTP_LIMIT)) with
    | none => rw [hfind] at hs; exact absurd hs (by simp)
    | some d =>
      rw [hfind] at hs
      have hd : d % OTP_MAX < OTP_MAX := Nat.mod_lt _ (by norm_num [OTP_MAX])
      have hs2 : s = Nat.repr (d % OTP_MAX + 100000) := by
        simpa using hs.symm
      have hOM : OTP_MAX = 900000 := rfl
      have hp5 : (10 : Nat) ^ 5 = 100000 := by norm_num
      have hp6 : (10 : Nat) ^ (5 + 1) = 1000000 := by norm_num
      refine ⟨d % OTP_MAX + 100000, hs2, by omega, by omega, ?_, ?_⟩
      · rw [hs2]
        exact repr_length_exact 5 (d % OTP_MAX + 100000) (by rw [hp5]; omega) (by rw [hp6]; omega)
      · rw [hs2]
        intro c hc
        refine toDigitsCore_ten_isDigit (d % OTP_MAX + 100000 + 1) (d % OTP_MAX + 100000) []
          (by simp) c ?_
        simpa [Nat.repr, Nat.toDigits, List.asString] using hc

/-- Witness for C9: a run whose first draw (16777215) is rejected by the
modulo-bias limit and whose second draw is accepted yields the six-digit code
223456. -/
theorem C9_generateOtpCode_range_witness :
    (∃ s, generateOtpCode [16777215, 123456] = some s) ∧
    (∃ v : Nat, "223456" = Nat.repr v ∧ 100000 ≤ v ∧ v ≤ 999999 ∧
      ("223456" : String).length = 6 ∧ ∀ c ∈ ("223456" : String).data, c.isDigit = true) :=
  ⟨(C9_generateOtpCode_range [16777215, 123456]).1 ⟨123456, by decide⟩,
   (C9_generateOtpCode_range [16777215, 123456]).2 "223456" (by decide)⟩
